import Mathlib

/-!
Verification of the HID report state machine, keycode translation layer,
exit-hotkey detector and hot-plug device manager of ninjaUSB-util.

The C++ sources are embedded shallowly:
* `src/src/inc/hid_keycodes.hpp` — keycode tables, `KeyboardState`,
  `apply_key_event`, `make_consumer_report`;
* `src/src/inc/exit_hotkey_detector.hpp` — `ExitHotkeyDetector`;
* `src/src/device_manager.cpp` — `KeyboardManager` (`update_devices`,
  `add_device`, `remove_device`, `get_poll_fds`).

Machine integers are modelled as `Nat` with explicit `% 2^w` where the code
casts, Linux event codes and event values (C `int`) as `Int`, `std::set` as
`Finset Nat` (iteration order = ascending numeric order), mutable objects as
explicit state passing.
-/

namespace hid

/-- Linux KEY_* input-event codes used by the program
(numeric values from `linux/input-event-codes.h`). -/
def KEY_LEFTCTRL : Int := 29
def KEY_RIGHTCTRL : Int := 97
def KEY_LEFTALT : Int := 56
def KEY_RIGHTALT : Int := 100
def KEY_H : Int := 35
def KEY_A : Int := 30
def KEY_VOLUMEUP : Int := 115

/-- `KEYBOARD_REPORT_SIZE` from hid_keycodes.hpp. -/
def KEYBOARD_REPORT_SIZE : Nat := 8

/-- `CONSUMER_REPORT_SIZE` from hid_keycodes.hpp. -/
def CONSUMER_REPORT_SIZE : Nat := 2

/-- `MAX_SIMULTANEOUS_KEYS` from hid_keycodes.hpp. -/
def MAX_SIMULTANEOUS_KEYS : Nat := 6

/-- `MODIFIER_BASE` (0xE0) from hid_keycodes.hpp. -/
def MODIFIER_BASE : Nat := 0xE0

/-- `MODIFIER_MAX` (0xE7) from hid_keycodes.hpp. -/
def MODIFIER_MAX : Nat := 0xE7

/-- The `kKeyboardUsage` table of hid_keycodes.hpp: Linux KEY_* code →
USB HID keyboard-page usage, entry for entry in source order, with the
KEY_* macros replaced by their numeric values from
`linux/input-event-codes.h`. -/
def kKeyboardUsage : List (Int × Nat) := [
  -- Alphabet: KEY_A .. KEY_Z
  (30, 0x04), (48, 0x05), (46, 0x06), (32, 0x07),
  (18, 0x08), (33, 0x09), (34, 0x0A), (35, 0x0B),
  (23, 0x0C), (36, 0x0D), (37, 0x0E), (38, 0x0F),
  (50, 0x10), (49, 0x11), (24, 0x12), (25, 0x13),
  (16, 0x14), (19, 0x15), (31, 0x16), (20, 0x17),
  (22, 0x18), (47, 0x19), (17, 0x1A), (45, 0x1B),
  (21, 0x1C), (44, 0x1D),
  -- Number row: KEY_1 .. KEY_0
  (2, 0x1E), (3, 0x1F), (4, 0x20), (5, 0x21),
  (6, 0x22), (7, 0x23), (8, 0x24), (9, 0x25),
  (10, 0x26), (11, 0x27),
  -- Punctuation / symbols
  (28, 0x28), (1, 0x29), (14, 0x2A),
  (15, 0x2B), (57, 0x2C), (12, 0x2D),
  (13, 0x2E), (26, 0x2F), (27, 0x30),
  (43, 0x31), (39, 0x33), (40, 0x34),
  (41, 0x35), (51, 0x36), (52, 0x37),
  (53, 0x38), (58, 0x39),
  -- Function row: KEY_F1 .. KEY_F12
  (59, 0x3A), (60, 0x3B), (61, 0x3C), (62, 0x3D),
  (63, 0x3E), (64, 0x3F), (65, 0x40), (66, 0x41),
  (67, 0x42), (68, 0x43), (87, 0x44), (88, 0x45),
  -- Print/Scroll/Pause: KEY_SYSRQ, KEY_SCROLLLOCK, KEY_PAUSE
  (99, 0x46), (70, 0x47), (119, 0x48),
  -- Insert/Delete/Home/End/PgUp/PgDn
  (110, 0x49), (102, 0x4A), (104, 0x4B),
  (111, 0x4C), (107, 0x4D), (109, 0x4E),
  -- Arrow keys: KEY_RIGHT, KEY_LEFT, KEY_DOWN, KEY_UP
  (106, 0x4F), (105, 0x50), (108, 0x51), (103, 0x52),
  -- Keypad
  (69, 0x53), (98, 0x54), (55, 0x55),
  (74, 0x56), (78, 0x57), (96, 0x58),
  (79, 0x59), (80, 0x5A), (81, 0x5B),
  (75, 0x5C), (76, 0x5D), (77, 0x5E),
  (71, 0x5F), (72, 0x60), (73, 0x61),
  (82, 0x62), (83, 0x63), (117, 0x67),
  -- ISO / Intl: KEY_102ND
  (86, 0x64),
  -- Modifiers: KEY_LEFTCTRL, KEY_LEFTSHIFT, KEY_LEFTALT, KEY_LEFTMETA,
  --            KEY_RIGHTCTRL, KEY_RIGHTSHIFT, KEY_RIGHTALT, KEY_RIGHTMETA
  (29, 0xE0), (42, 0xE1), (56, 0xE2),
  (125, 0xE3), (97, 0xE4), (54, 0xE5),
  (100, 0xE6), (126, 0xE7),
  -- Misc: KEY_MENU, KEY_POWER, KEY_SLEEP, KEY_WAKEUP
  (139, 0x65), (116, 0x66), (142, 0x68), (143, 0x69)]

/-- The `kConsumerUsage` table of hid_keycodes.hpp: Linux KEY_* code →
USB HID consumer-page usage, entry for entry in source order. -/
def kConsumerUsage : List (Int × Nat) := [
  (115, 0x00E9), (114, 0x00EA), (113, 0x00E2),
  (164, 0x00CD), (163, 0x00B5), (165, 0x00B6),
  (166, 0x00B7), (161, 0x00B8),
  (225, 0x006F), (224, 0x0070),
  (172, 0x0223), (217, 0x0221), (158, 0x0224),
  (159, 0x0225), (173, 0x0227), (156, 0x022A)]

/-- `is_modifier` from hid_keycodes.hpp. -/
def is_modifier (hid_code : Nat) : Bool :=
  decide (MODIFIER_BASE ≤ hid_code) && decide (hid_code ≤ MODIFIER_MAX)

/-- `modifier_bit` from hid_keycodes.hpp: `1u << (hid_code - 0xE0)` truncated
to `uint8` by the cast. -/
def modifier_bit (hid_code : Nat) : Nat :=
  (1 <<< (hid_code - MODIFIER_BASE)) % 256

/-- `get_keyboard_usage`: hash-map lookup in `kKeyboardUsage`. -/
def get_keyboard_usage (linux_code : Int) : Option Nat :=
  kKeyboardUsage.lookup linux_code

/-- `get_consumer_usage`: hash-map lookup in `kConsumerUsage`. -/
def get_consumer_usage (linux_code : Int) : Option Nat :=
  kConsumerUsage.lookup linux_code

/-- `KeyboardState` from hid_keycodes.hpp. `modifiers_` is a `uint8`;
`pressed_keys_` is a `std::set<uint8>` (ascending iteration order), modelled
as a `Finset Nat`; `report_` is the 8-byte cache and `report_dirty_` the
dirty flag (both `mutable` in the source, modelled by explicit state
passing). -/
structure KeyboardState where
  modifiers : Nat
  pressed_keys : Finset Nat
  report : List Nat
  report_dirty : Bool
deriving DecidableEq

/-- A fresh `KeyboardState` as default-constructed in C++: zero modifiers,
empty set, zeroed report array, dirty flag initially true. -/
def KeyboardState.init : KeyboardState :=
  { modifiers := 0, pressed_keys := ∅,
    report := List.replicate KEYBOARD_REPORT_SIZE 0, report_dirty := true }

/-- The pure content of `KeyboardState::update_report` (hid_keycodes.hpp
lines 262-278): `report_.fill(0)`, `report_[0] = modifiers_`, then the keys
of `pressed_keys_` in ascending order are written at indices 2.. as long as
the index stays below 8 (so at most 6 of them), the rest stays zero. -/
def computed_report (s : KeyboardState) : List Nat :=
  let keys := (s.pressed_keys.sort (· ≤ ·)).take MAX_SIMULTANEOUS_KEYS
  s.modifiers :: 0 :: (keys ++ List.replicate (MAX_SIMULTANEOUS_KEYS - keys.length) 0)

/-- `KeyboardState::update_report`: a no-op when the cache is clean,
otherwise recomputes the cached report and clears the dirty flag. -/
def update_report (s : KeyboardState) : KeyboardState :=
  if !s.report_dirty then s
  else { s with report := computed_report s, report_dirty := false }

/-- `KeyboardState::get_report`: calls `update_report` and returns the cached
buffer (the mutable-cache mutation is returned as the second component). -/
def get_report (s : KeyboardState) : List Nat × KeyboardState :=
  let s2 := update_report s
  (s2.report, s2)

/-- `KeyboardState::get_modifiers`. -/
def get_modifiers (s : KeyboardState) : Nat := s.modifiers

/-- `KeyboardState::get_pressed_key_count`: `pressed_keys_.size()`. -/
def get_pressed_key_count (s : KeyboardState) : Nat := s.pressed_keys.card

/-- `KeyboardState::is_dirty`. -/
def is_dirty (s : KeyboardState) : Bool := s.report_dirty

/-- `KeyboardState::set_key_state` (hid_keycodes.hpp lines 319-335).
`modifiers_ &= ~bit` on `uint8` is masking with the 8-bit complement
`255 ^^^ bit`. The dirty flag is set unconditionally. -/
def set_key_state (s : KeyboardState) (hid_code : Nat) (pressed : Bool) :
    KeyboardState :=
  if is_modifier hid_code then
    let bit := modifier_bit hid_code
    if pressed then
      { s with modifiers := s.modifiers ||| bit, report_dirty := true }
    else
      { s with modifiers := s.modifiers &&& (255 ^^^ bit), report_dirty := true }
  else
    if pressed then
      { s with pressed_keys := insert hid_code s.pressed_keys, report_dirty := true }
    else
      { s with pressed_keys := s.pressed_keys.erase hid_code, report_dirty := true }

/-- `KeyboardState::clear` (hid_keycodes.hpp lines 340-344). -/
def clear (s : KeyboardState) : KeyboardState :=
  { s with modifiers := 0, pressed_keys := ∅, report_dirty := true }

/-- `apply_key_event` (hid_keycodes.hpp lines 354-373). Returns the C++
return value paired with the state after the call. -/
def apply_key_event (s : KeyboardState) (linux_code : Int) (value : Int) :
    Bool × KeyboardState :=
  match get_keyboard_usage linux_code with
  | none => (false, s)
  | some hid_code =>
    if value = 0 then (true, set_key_state s hid_code false)
    else if value = 1 ∨ value = 2 then (true, set_key_state s hid_code true)
    else (false, s)

/-- `make_consumer_report` (hid_keycodes.hpp lines 381-395): on `value == 1`
with a mapped code the 16-bit consumer usage, else 0; emitted as two bytes,
low first (`usage & 0xFF`, then `(usage >> 8) & 0xFF`). -/
def make_consumer_report (linux_code : Int) (value : Int) : List Nat :=
  let usage : Nat :=
    if value = 1 then
      match get_consumer_usage linux_code with
      | some consumer_usage => consumer_usage
      | none => 0
    else 0
  [usage % 256, (usage / 256) % 256]

end hid

/-- `ExitHotkeyDetector` from exit_hotkey_detector.hpp: three booleans,
all false after construction (`enable_logging_` plays no role in
`process_key_event` and is omitted). -/
structure ExitHotkeyDetector where
  ctrl_pressed : Bool
  alt_pressed : Bool
  h_pressed : Bool
deriving DecidableEq

/-- A default-constructed `ExitHotkeyDetector`. -/
def ExitHotkeyDetector.init : ExitHotkeyDetector :=
  { ctrl_pressed := false, alt_pressed := false, h_pressed := false }

/-- `ExitHotkeyDetector::process_key_event` (exit_hotkey_detector.hpp lines
41-81). Returns the C++ return value paired with the state after the call.
`is_press` is `value == 1`, `is_release` is `value == 0`; other values leave
every flag unchanged. On a press of KEY_H the chord check
`ctrl_pressed_ && alt_pressed_ && h_pressed_` runs after `h_pressed_` was
set, and a hit returns true immediately. -/
def process_key_event (d : ExitHotkeyDetector) (linux_code : Int)
    (value : Int) : Bool × ExitHotkeyDetector :=
  let is_press := value = 1
  let is_release := value = 0
  if linux_code = hid.KEY_LEFTCTRL ∨ linux_code = hid.KEY_RIGHTCTRL then
    if is_press then (false, { d with ctrl_pressed := true })
    else if is_release then (false, { d with ctrl_pressed := false })
    else (false, d)
  else if linux_code = hid.KEY_LEFTALT ∨ linux_code = hid.KEY_RIGHTALT then
    if is_press then (false, { d with alt_pressed := true })
    else if is_release then (false, { d with alt_pressed := false })
    else (false, d)
  else if linux_code = hid.KEY_H then
    if is_press then
      let d2 := { d with h_pressed := true }
      (d2.ctrl_pressed && d2.alt_pressed && d2.h_pressed, d2)
    else if is_release then (false, { d with h_pressed := false })
    else (false, d)
  else (false, d)

/-- Run `process_key_event` over a list of `(code, value)` events, keeping
only the final state (used to build concrete detector states from event
sequences). -/
def run_key_events (d : ExitHotkeyDetector) (evs : List (Int × Int)) :
    ExitHotkeyDetector :=
  evs.foldl (fun st e => (process_key_event st e.1 e.2).2) d

namespace device

/-- One `KeyboardDevice` of device_manager.hpp, reduced to the fields the
manager logic reads: the filesystem `path()` (unique key), the `fd()`, and
the `is_valid()` flag. -/
structure KeyboardDevice where
  path : String
  fd : Int
  valid : Bool
deriving DecidableEq

/-- `KeyboardManager` of device_manager.cpp: the `keyboards_` collection in
insertion order, plus the `monitor_` member reduced to its `is_valid()`
result and its `monitor_fd()`. -/
structure KeyboardManager where
  keyboards : List KeyboardDevice
  monitor_valid : Bool
  monitor_fd : Int
deriving DecidableEq

/-- One hot-plug notification as delivered to the `process_events`
callbacks: an "add" or "remove" udev action whose device node matched the
input-event naming filter. -/
inductive HotplugEvent where
  | add (path : String)
  | remove (path : String)
deriving DecidableEq

/-- `KeyboardManager::add_device` (device_manager.cpp lines 563-577).
The constructor call `KeyboardDevice kbd(device_path)` performs I/O
(open + capability parse); it is abstracted by the environment parameter
`probe`: `probe path = some fd` means the constructed device is valid with
that descriptor, `none` means `kbd.is_valid()` is false. A path already in
the collection returns early; an invalid construction adds nothing. -/
def add_device (probe : String → Option Int) (m : KeyboardManager)
    (device_path : String) : KeyboardManager :=
  if m.keyboards.any (fun kbd => kbd.path = device_path) then m
  else
    match probe device_path with
    | some fd =>
      { m with keyboards := m.keyboards ++ [⟨device_path, fd, true⟩] }
    | none => m

/-- `KeyboardManager::remove_device` (device_manager.cpp lines 600-607):
erase the first collection entry whose path matches, if any. -/
def remove_device (m : KeyboardManager) (device_path : String) :
    KeyboardManager :=
  { m with keyboards := m.keyboards.eraseP (fun kbd => kbd.path = device_path) }

/-- `KeyboardManager::update_devices` (device_manager.cpp lines 478-497).
Returns false immediately when the monitor is invalid. Otherwise
`monitor_.process_events(on_add, on_remove)` drains the queued
notifications (`events`, already filtered to matching device nodes) and for
each one the corresponding callback runs `add_device`/`remove_device` and
sets `devices_changed = true` unconditionally. `update_step` is the pair
of callbacks `on_add`/`on_remove` acting on the accumulated
`(devices_changed, manager)` pair. -/
def update_step (probe : String → Option Int)
    (acc : Bool × KeyboardManager) (ev : HotplugEvent) :
    Bool × KeyboardManager :=
  match ev with
  | .add path => (true, add_device probe acc.2 path)
  | .remove path => (true, remove_device acc.2 path)

/-- `KeyboardManager::update_devices` proper: bail out with false on an
invalid monitor, otherwise run the callbacks over the drained notifications
and return the final `devices_changed` flag with the final state. -/
def update_devices (probe : String → Option Int) (m : KeyboardManager)
    (events : List HotplugEvent) : Bool × KeyboardManager :=
  if !m.monitor_valid then (false, m)
  else events.foldl (update_step probe) (false, m)

/-- `KeyboardManager::get_poll_fds` (device_manager.cpp lines 528-543): the
fds of the valid devices in collection order, then — only when
`monitor_.is_valid()` — the monitor fd. -/
def get_poll_fds (m : KeyboardManager) : List Int :=
  (m.keyboards.filter (fun kbd => kbd.valid)).map (fun kbd => kbd.fd)
    ++ (if m.monitor_valid then [m.monitor_fd] else [])

end device

/-- Cache invariant of `KeyboardState`: whenever the dirty flag is clear,
the cached `report_` holds exactly the report computed from the current
modifier bitmap and pressed-key set. It holds after construction (the flag
starts dirty) and is preserved by every public operation, so it holds in
every state the C++ object can reach. -/
def hid.CacheConsistent (s : hid.KeyboardState) : Prop :=
  s.report_dirty = false → s.report = hid.computed_report s

section SupportingLemmas

/-- The cache invariant holds for a fresh `KeyboardState`. -/
lemma cacheConsistent_init : hid.CacheConsistent hid.KeyboardState.init := by
  simp [hid.CacheConsistent, hid.KeyboardState.init]

/-- `set_key_state` marks the cache dirty, so it preserves the invariant. -/
lemma cacheConsistent_set_key_state (s : hid.KeyboardState) (u : Nat)
    (p : Bool) : hid.CacheConsistent (hid.set_key_state s u p) := by
  unfold hid.CacheConsistent hid.set_key_state
  split_ifs <;> simp

/-- `clear` marks the cache dirty, so it preserves the invariant. -/
lemma cacheConsistent_clear (s : hid.KeyboardState) :
    hid.CacheConsistent (hid.clear s) := by
  simp [hid.CacheConsistent, hid.clear]

/-- `get_report` leaves the state cache-consistent. -/
lemma cacheConsistent_get_report (s : hid.KeyboardState)
    (h : hid.CacheConsistent s) : hid.CacheConsistent (hid.get_report s).2 := by
  by_cases hd : s.report_dirty
  · simp [hid.CacheConsistent, hid.get_report, hid.update_report, hd,
      hid.computed_report]
  · simp only [Bool.not_eq_true] at hd
    simpa [hid.CacheConsistent, hid.get_report, hid.update_report, hd] using h

/-- A `List.lookup` result is a value stored in the table. -/
lemma lookup_val_lt (l : List (Int × Nat)) (bound : Nat)
    (hl : ∀ pr ∈ l, pr.2 < bound) (code : Int) (u : Nat)
    (h : l.lookup code = some u) : u < bound := by
  induction l with
  | nil => simp [List.lookup] at h
  | cons hd tl ih =>
    obtain ⟨k, v⟩ := hd
    rw [List.lookup] at h
    rcases hbeq : code == k with _ | _
    · rw [hbeq] at h
      exact ih (fun pr hpr => hl pr (List.mem_cons_of_mem _ hpr)) h
    · rw [hbeq] at h
      injection h with hv
      subst hv
      exact hl (k, v) (List.mem_cons_self _ _)

/-- Every consumer usage stored in `kConsumerUsage` fits in 16 bits. -/
lemma consumer_usage_lt (code : Int) (u : Nat)
    (h : hid.get_consumer_usage code = some u) : u < 65536 :=
  lookup_val_lt hid.kConsumerUsage 65536 (by decide) code u h

/-- Folding the `update_devices` callbacks over a notification list turns
the `devices_changed` flag on exactly when the list is non-empty (the
callbacks set it unconditionally, whether or not they modify the
collection). -/
lemma update_step_foldl_flag (probe : String → Option Int) :
    ∀ (evs : List device.HotplugEvent) (m : device.KeyboardManager)
      (b : Bool),
    (evs.foldl (device.update_step probe) (b, m)).1 = (b || !evs.isEmpty) := by
  intro evs
  induction evs with
  | nil => intro m b; simp
  | cons e es ih =>
    intro m b
    cases e with
    | add p => simp [device.update_step, ih]
    | remove p => simp [device.update_step, ih]

end SupportingLemmas

/-- C6: for every `KeyboardState`, two consecutive `get_report()` calls with
no intervening mutation return byte-identical 8-byte buffers (and the second
call does not change the state further): `get_report` is deterministic and
idempotent. -/
theorem get_report_idempotent (s : hid.KeyboardState) :
    (hid.get_report (hid.get_report s).2).1 = (hid.get_report s).1
    ∧ (hid.get_report (hid.get_report s).2).2 = (hid.get_report s).2 := by
  by_cases h : s.report_dirty <;>
    simp [hid.get_report, hid.update_report, h]

/-- C7: for every `KeyboardState`, `clear()` resets the modifier bitmap to 0,
empties the pressed-key set and marks the cache dirty, so the following
`get_report()` rebuilds the buffer and yields all-zero bytes. -/
theorem clear_yields_zero_report (s : hid.KeyboardState) :
    (hid.clear s).modifiers = 0
    ∧ (hid.clear s).pressed_keys = ∅
    ∧ (hid.clear s).report_dirty = true
    ∧ (hid.get_report (hid.clear s)).1
        = List.replicate hid.KEYBOARD_REPORT_SIZE 0 := by
  refine ⟨rfl, rfl, rfl, ?_⟩
  simp [hid.clear, hid.get_report, hid.update_report, hid.computed_report,
    hid.KEYBOARD_REPORT_SIZE, hid.MAX_SIMULTANEOUS_KEYS]

/-- C4: for every `ExitHotkeyDetector` state, a repeat event (value = 2) of
the letter key never returns true; more precisely `process_key_event`
returns true exactly when the event is a value = 1 press of KEY_H while
`ctrl_pressed_` and `alt_pressed_` are already true. -/
theorem exit_hotkey_trigger_characterization (d : ExitHotkeyDetector)
    (code value : Int) :
    (process_key_event d hid.KEY_H 2).1 = false
    ∧ ((process_key_event d code value).1 = true ↔
        code = hid.KEY_H ∧ value = 1 ∧ d.ctrl_pressed = true
          ∧ d.alt_pressed = true) := by
  constructor
  · simp [process_key_event, hid.KEY_H, hid.KEY_LEFTCTRL, hid.KEY_RIGHTCTRL,
      hid.KEY_LEFTALT, hid.KEY_RIGHTALT]
  · unfold process_key_event
    by_cases hc : code = hid.KEY_LEFTCTRL ∨ code = hid.KEY_RIGHTCTRL
    · have h35 : ¬ code = hid.KEY_H := by
        rcases hc with h | h <;> simp [h, hid.KEY_H, hid.KEY_LEFTCTRL,
          hid.KEY_RIGHTCTRL]
      split_ifs <;> simp_all <;> split_ifs <;> rfl
    · by_cases ha : code = hid.KEY_LEFTALT ∨ code = hid.KEY_RIGHTALT
      · have h35 : ¬ code = hid.KEY_H := by
          rcases ha with h | h <;> simp [h, hid.KEY_H, hid.KEY_LEFTALT,
            hid.KEY_RIGHTALT]
        split_ifs <;> simp_all <;> split_ifs <;> rfl
      · by_cases hh : code = hid.KEY_H
        · subst hh
          simp only [hc, ha, if_false, if_pos rfl, ite_true]
          split_ifs with hv1 hv0 <;> simp_all
        · simp [hc, ha, hh]

/-- C5: `apply_key_event` with a platform code absent from the keyboard
usage table returns false and leaves the state (in particular the modifier
bitmap and the pressed-key set) unchanged; with a mapped code, value 0
clears the key/modifier via `set_key_state(·, false)` and values 1 and 2
set it via `set_key_state(·, true)`, returning true. -/
theorem apply_key_event_lookup_spec (s : hid.KeyboardState)
    (c1 c2 v : Int) (u : Nat)
    (h1 : hid.get_keyboard_usage c1 = none)
    (h2 : hid.get_keyboard_usage c2 = some u) :
    hid.apply_key_event s c1 v = (false, s)
    ∧ (hid.apply_key_event s c1 v).2.modifiers = s.modifiers
    ∧ (hid.apply_key_event s c1 v).2.pressed_keys = s.pressed_keys
    ∧ hid.apply_key_event s c2 0 = (true, hid.set_key_state s u false)
    ∧ hid.apply_key_event s c2 1 = (true, hid.set_key_state s u true)
    ∧ hid.apply_key_event s c2 2 = (true, hid.set_key_state s u true) := by
  simp [hid.apply_key_event, h1, h2]

/-- Witness for C5 at a concrete input: Linux code 113 (KEY_MUTE, a
consumer-only key) is absent from the keyboard table while 30 (KEY_A) maps
to usage 0x04. -/
theorem apply_key_event_lookup_spec_witness :
    hid.get_keyboard_usage 113 = none
    ∧ hid.get_keyboard_usage 30 = some 0x04
    ∧ (hid.apply_key_event hid.KeyboardState.init 113 1
        = (false, hid.KeyboardState.init)
      ∧ (hid.apply_key_event hid.KeyboardState.init 113 1).2.modifiers
          = hid.KeyboardState.init.modifiers
      ∧ (hid.apply_key_event hid.KeyboardState.init 113 1).2.pressed_keys
          = hid.KeyboardState.init.pressed_keys
      ∧ hid.apply_key_event hid.KeyboardState.init 30 0
          = (true, hid.set_key_state hid.KeyboardState.init 0x04 false)
      ∧ hid.apply_key_event hid.KeyboardState.init 30 1
          = (true, hid.set_key_state hid.KeyboardState.init 0x04 true)
      ∧ hid.apply_key_event hid.KeyboardState.init 30 2
          = (true, hid.set_key_state hid.KeyboardState.init 0x04 true)) :=
  ⟨by decide, by decide,
    apply_key_event_lookup_spec hid.KeyboardState.init 113 30 1 0x04
      (by decide) (by decide)⟩

/-- C10: for every `KeyboardState` and every platform code that is mapped in
the keyboard table, `apply_key_event` with a value outside {0, 1, 2} falls
into the `default` branch: it returns false and leaves the state unchanged. -/
theorem apply_key_event_bad_value (s : hid.KeyboardState)
    (c : Int) (v : Int) (u : Nat)
    (h : hid.get_keyboard_usage c = some u)
    (hv0 : v ≠ 0) (hv1 : v ≠ 1) (hv2 : v ≠ 2) :
    hid.apply_key_event s c v = (false, s)
    ∧ (hid.apply_key_event s c v).2.modifiers = s.modifiers
    ∧ (hid.apply_key_event s c v).2.pressed_keys = s.pressed_keys := by
  simp [hid.apply_key_event, h, hv0, hv1, hv2]

/-- Witness for C10: Linux code 30 (KEY_A) is mapped, event value 5 is
outside {0, 1, 2}, and the call is rejected without mutation. -/
theorem apply_key_event_bad_value_witness :
    hid.get_keyboard_usage 30 = some 0x04
    ∧ (5 : Int) ≠ 0 ∧ (5 : Int) ≠ 1 ∧ (5 : Int) ≠ 2
    ∧ (hid.apply_key_event hid.KeyboardState.init 30 5
        = (false, hid.KeyboardState.init)
      ∧ (hid.apply_key_event hid.KeyboardState.init 30 5).2.modifiers
          = hid.KeyboardState.init.modifiers
      ∧ (hid.apply_key_event hid.KeyboardState.init 30 5).2.pressed_keys
          = hid.KeyboardState.init.pressed_keys) :=
  ⟨by decide, by decide, by decide, by decide,
    apply_key_event_bad_value hid.KeyboardState.init 30 5 0x04
      (by decide) (by decide) (by decide) (by decide)⟩

/-- C9: `make_consumer_report` always returns a 2-byte buffer; on a press
(value = 1) of a code mapped to consumer usage `u` the buffer is the
little-endian encoding of `u` (low byte first, and the two bytes
reconstruct `u`); on a release/repeat (value ≠ 1) or an unmapped code the
buffer is all zero. The encoder reads no state. -/
theorem make_consumer_report_layout (code v : Int) (u : Nat) :
    (hid.make_consumer_report code v).length = hid.CONSUMER_REPORT_SIZE
    ∧ (v = 1 → hid.get_consumer_usage code = some u →
        hid.make_consumer_report code v = [u % 256, u / 256 % 256]
        ∧ (hid.make_consumer_report code v).headI
            + 256 * (hid.make_consumer_report code v).getLastI = u)
    ∧ (v ≠ 1 → hid.make_consumer_report code v = [0, 0])
    ∧ (hid.get_consumer_usage code = none →
        hid.make_consumer_report code v = [0, 0]) := by
  refine ⟨rfl, ?_, ?_, ?_⟩
  · intro hv hu
    have hlt : u < 65536 := consumer_usage_lt code u hu
    constructor
    · simp [hid.make_consumer_report, hv, hu]
    · simp only [hid.make_consumer_report, hv, if_pos, hu]
      simp [List.headI, List.getLastI]
      omega
  · intro hv
    simp [hid.make_consumer_report, hv]
  · intro hu
    by_cases hv : v = 1 <;> simp [hid.make_consumer_report, hv, hu]

/-- Witness for C9: Linux code 115 (KEY_VOLUMEUP) maps to consumer usage
0x00E9; a press emits `[0xE9, 0x00]`, any other value the zero buffer. -/
theorem make_consumer_report_layout_witness :
    (hid.make_consumer_report 115 1).length = hid.CONSUMER_REPORT_SIZE
    ∧ ((1 : Int) = 1 → hid.get_consumer_usage 115 = some 0x00E9 →
        hid.make_consumer_report 115 1 = [0x00E9 % 256, 0x00E9 / 256 % 256]
        ∧ (hid.make_consumer_report 115 1).headI
            + 256 * (hid.make_consumer_report 115 1).getLastI = 0x00E9)
    ∧ ((1 : Int) ≠ 1 → hid.make_consumer_report 115 1 = [0, 0])
    ∧ (hid.get_consumer_usage 115 = none →
        hid.make_consumer_report 115 1 = [0, 0]) :=
  make_consumer_report_layout 115 1 0x00E9

/-- C1: for every cache-consistent `KeyboardState`, `get_report()` returns
an 8-byte buffer with byte 0 the modifier bitmap, byte 1 zero, and bytes
2-7 the pressed non-modifier usage codes in ascending numeric order,
zero-padded; the listing of the pressed-key set is sorted ascending and
complete, every reported code is bounded by every dropped code (so with
more than 6 keys pressed exactly the 6 numerically smallest appear), and
`get_pressed_key_count()` still equals the true number of pressed keys. -/
theorem keyboard_report_layout (s : hid.KeyboardState)
    (hs : hid.CacheConsistent s) :
    ((hid.get_report s).1).length = hid.KEYBOARD_REPORT_SIZE
    ∧ (hid.get_report s).1
        = s.modifiers :: 0 ::
          ((s.pressed_keys.sort (· ≤ ·)).take hid.MAX_SIMULTANEOUS_KEYS
            ++ List.replicate (hid.MAX_SIMULTANEOUS_KEYS
                - min hid.MAX_SIMULTANEOUS_KEYS s.pressed_keys.card) 0)
    ∧ List.Sorted (· ≤ ·) (s.pressed_keys.sort (· ≤ ·))
    ∧ (s.pressed_keys.sort (· ≤ ·)).length = s.pressed_keys.card
    ∧ (((s.pressed_keys.sort (· ≤ ·)).take hid.MAX_SIMULTANEOUS_KEYS).all
        fun a =>
          ((s.pressed_keys.sort (· ≤ ·)).drop hid.MAX_SIMULTANEOUS_KEYS).all
            fun b => decide (a ≤ b)) = true
    ∧ hid.get_pressed_key_count s = s.pressed_keys.card := by
  have hrep : (hid.get_report s).1 = hid.computed_report s := by
    by_cases hd : s.report_dirty
    · simp [hid.get_report, hid.update_report, hd]
    · simp only [Bool.not_eq_true] at hd
      simp [hid.get_report, hid.update_report, hd, hs hd]
  have hsortlen : (s.pressed_keys.sort (· ≤ ·)).length = s.pressed_keys.card :=
    Finset.length_sort _
  refine ⟨?_, ?_, Finset.sort_sorted _ _, hsortlen, ?_, rfl⟩
  · rw [hrep]
    simp [hid.computed_report, hid.KEYBOARD_REPORT_SIZE,
      hid.MAX_SIMULTANEOUS_KEYS, List.length_take]
  · rw [hrep]
    simp [hid.computed_report, List.length_take, hsortlen]
  · simp only [List.all_eq_true, decide_eq_true_eq]
    intro a ha b hb
    exact (Finset.sort_sorted (· ≤ ·) s.pressed_keys).rel_of_mem_take_of_mem_drop
      ha hb

/-- Witness for C1 at a concrete 7-key state (so the 6-key truncation is
exercised): modifiers 0x01, pressed keys {4,...,10}, dirty cache. -/
theorem keyboard_report_layout_witness :
    hid.CacheConsistent ⟨0x01, {4, 5, 6, 7, 8, 9, 10}, List.replicate 8 0, true⟩
    ∧ (((hid.get_report ⟨0x01, {4, 5, 6, 7, 8, 9, 10}, List.replicate 8 0,
          true⟩).1).length = hid.KEYBOARD_REPORT_SIZE
      ∧ (hid.get_report ⟨0x01, {4, 5, 6, 7, 8, 9, 10}, List.replicate 8 0,
          true⟩).1
          = (0x01 : Nat) :: 0 ::
            ((({4, 5, 6, 7, 8, 9, 10} : Finset Nat).sort (· ≤ ·)).take
                hid.MAX_SIMULTANEOUS_KEYS
              ++ List.replicate (hid.MAX_SIMULTANEOUS_KEYS
                  - min hid.MAX_SIMULTANEOUS_KEYS
                      ({4, 5, 6, 7, 8, 9, 10} : Finset Nat).card) 0)
      ∧ List.Sorted (· ≤ ·) (({4, 5, 6, 7, 8, 9, 10} : Finset Nat).sort (· ≤ ·))
      ∧ (({4, 5, 6, 7, 8, 9, 10} : Finset Nat).sort (· ≤ ·)).length
          = ({4, 5, 6, 7, 8, 9, 10} : Finset Nat).card
      ∧ (((({4, 5, 6, 7, 8, 9, 10} : Finset Nat).sort (· ≤ ·)).take
            hid.MAX_SIMULTANEOUS_KEYS).all fun a =>
            ((({4, 5, 6, 7, 8, 9, 10} : Finset Nat).sort (· ≤ ·)).drop
              hid.MAX_SIMULTANEOUS_KEYS).all fun b => decide (a ≤ b)) = true
      ∧ hid.get_pressed_key_count ⟨0x01, {4, 5, 6, 7, 8, 9, 10},
          List.replicate 8 0, true⟩
          = ({4, 5, 6, 7, 8, 9, 10} : Finset Nat).card) :=
  ⟨by simp [hid.CacheConsistent],
    keyboard_report_layout _ (by simp [hid.CacheConsistent])⟩

/-- C2 (amended): `update_devices` returns true iff the monitor is valid
and at least one matching hot-plug notification was drained — the flag is
set by the callbacks whether or not the collection is modified. An add for
an already-stored path leaves the manager unchanged, an add whose device
fails validation changes nothing but still yields true, and adding the
same new path twice stores exactly one handle for it. -/
theorem update_devices_flag_spec (probe : String → Option Int)
    (m : device.KeyboardManager) (evs : List device.HotplugEvent)
    (p q r : String) (fd : Int)
    (hmon : m.monitor_valid = true)
    (hnew : m.keyboards.any (fun kbd => kbd.path = p) = false)
    (hprobe : probe p = some fd)
    (hdup : m.keyboards.any (fun kbd => kbd.path = q) = true)
    (hbad : probe r = none) :
    (device.update_devices probe m evs).1 = !evs.isEmpty
    ∧ ((device.update_devices probe m
        [.add p, .add p]).2.keyboards.filter
          (fun kbd => kbd.path = p)).length = 1
    ∧ device.add_device probe m q = m
    ∧ device.update_devices probe m [.add r] = (true, m) := by
  have hadd1 : device.add_device probe m p
      = { m with keyboards := m.keyboards ++ [⟨p, fd, true⟩] } := by
    simp [device.add_device, hnew, hprobe]
  refine ⟨?_, ?_, ?_, ?_⟩
  · simp [device.update_devices, hmon, update_step_foldl_flag]
  · have h2 : (device.update_devices probe m [.add p, .add p]).2
        = device.add_device probe (device.add_device probe m p) p := by
      simp [device.update_devices, hmon, device.update_step]
    rw [h2, hadd1]
    have hagain : device.add_device probe
        { m with keyboards := m.keyboards ++ [⟨p, fd, true⟩] } p
        = { m with keyboards := m.keyboards ++ [⟨p, fd, true⟩] } := by
      simp [device.add_device]
    rw [hagain]
    have hnil : m.keyboards.filter (fun kbd => decide (kbd.path = p)) = [] := by
      rw [List.filter_eq_nil_iff]
      intro kbd hkbd
      have := List.any_eq_false.mp hnew kbd hkbd
      simpa using this
    simp [List.filter_append, hnil]
  · simp [device.add_device, hdup]
  · simp [device.update_devices, hmon, device.update_step,
      device.add_device, hbad]

/-- Witness for C2 at concrete inputs: a manager holding
`/dev/input/event3`, a probe that validates only `/dev/input/event5`, an
empty drained list, the duplicate path `event3` and the invalid path
`event9`. -/
theorem update_devices_flag_spec_witness :
    (⟨[⟨"/dev/input/event3", 5, true⟩], true, 7⟩
        : device.KeyboardManager).monitor_valid = true
    ∧ ((⟨[⟨"/dev/input/event3", 5, true⟩], true, 7⟩
        : device.KeyboardManager).keyboards.any
          (fun kbd => kbd.path = "/dev/input/event5") = false)
    ∧ ((fun s => if s = "/dev/input/event5" then some (11 : Int) else none)
        "/dev/input/event5" = some 11)
    ∧ ((⟨[⟨"/dev/input/event3", 5, true⟩], true, 7⟩
        : device.KeyboardManager).keyboards.any
          (fun kbd => kbd.path = "/dev/input/event3") = true)
    ∧ ((fun s => if s = "/dev/input/event5" then some (11 : Int) else none)
        "/dev/input/event9" = none)
    ∧ ((device.update_devices
          (fun s => if s = "/dev/input/event5" then some (11 : Int) else none)
          ⟨[⟨"/dev/input/event3", 5, true⟩], true, 7⟩ []).1
        = !(([] : List device.HotplugEvent).isEmpty)
      ∧ ((device.update_devices
          (fun s => if s = "/dev/input/event5" then some (11 : Int) else none)
          ⟨[⟨"/dev/input/event3", 5, true⟩], true, 7⟩
          [.add "/dev/input/event5", .add "/dev/input/event5"]).2.keyboards.filter
            (fun kbd => kbd.path = "/dev/input/event5")).length = 1
      ∧ device.add_device
          (fun s => if s = "/dev/input/event5" then some (11 : Int) else none)
          ⟨[⟨"/dev/input/event3", 5, true⟩], true, 7⟩ "/dev/input/event3"
          = ⟨[⟨"/dev/input/event3", 5, true⟩], true, 7⟩
      ∧ device.update_devices
          (fun s => if s = "/dev/input/event5" then some (11 : Int) else none)
          ⟨[⟨"/dev/input/event3", 5, true⟩], true, 7⟩
          [.add "/dev/input/event9"]
          = (true, ⟨[⟨"/dev/input/event3", 5, true⟩], true, 7⟩)) :=
  ⟨rfl, by decide, by decide, by decide, by decide,
    update_devices_flag_spec _ _ [] "/dev/input/event5" "/dev/input/event3"
      "/dev/input/event9" 11 rfl (by decide) (by decide) (by decide)
      (by decide)⟩

/-- Counterexample to C2 as stated: draining a single add notification for
a path that is already stored returns true although the device collection
is left exactly as it was — the changed flag is not "true iff the
collection was actually modified". -/
theorem update_devices_changed_counterexample :
    (device.update_devices (fun _ => none)
        ⟨[⟨"/dev/input/event3", 5, true⟩], true, 7⟩
        [.add "/dev/input/event3"]).1 = true
    ∧ (device.update_devices (fun _ => none)
        ⟨[⟨"/dev/input/event3", 5, true⟩], true, 7⟩
        [.add "/dev/input/event3"]).2
      = ⟨[⟨"/dev/input/event3", 5, true⟩], true, 7⟩ := by
  constructor <;> decide

/-- C3 (amended): from a completed-chord state, a release of one of the
two *modifier* chord keys followed by a press of the letter key does not
trigger. (Releasing the letter itself and re-pressing it does re-trigger —
see the counterexample.) -/
theorem exit_hotkey_modifier_release_no_trigger (d : ExitHotkeyDetector)
    (mcode : Int)
    (hchord : d.ctrl_pressed = true ∧ d.alt_pressed = true
      ∧ d.h_pressed = true)
    (hm : mcode = hid.KEY_LEFTCTRL ∨ mcode = hid.KEY_RIGHTCTRL
      ∨ mcode = hid.KEY_LEFTALT ∨ mcode = hid.KEY_RIGHTALT) :
    (process_key_event ((process_key_event d mcode 0).2) hid.KEY_H 1).1
      = false := by
  rcases hm with h | h | h | h <;> subst h <;>
    simp [process_key_event, hid.KEY_LEFTCTRL, hid.KEY_RIGHTCTRL,
      hid.KEY_LEFTALT, hid.KEY_RIGHTALT, hid.KEY_H]

/-- Witness for C3 (amended): chord held, Left-Ctrl released, letter
re-pressed — no trigger. -/
theorem exit_hotkey_modifier_release_no_trigger_witness :
    ((⟨true, true, true⟩ : ExitHotkeyDetector).ctrl_pressed = true
      ∧ (⟨true, true, true⟩ : ExitHotkeyDetector).alt_pressed = true
      ∧ (⟨true, true, true⟩ : ExitHotkeyDetector).h_pressed = true)
    ∧ ((29 : Int) = hid.KEY_LEFTCTRL ∨ (29 : Int) = hid.KEY_RIGHTCTRL
      ∨ (29 : Int) = hid.KEY_LEFTALT ∨ (29 : Int) = hid.KEY_RIGHTALT)
    ∧ (process_key_event
        ((process_key_event (⟨true, true, true⟩ : ExitHotkeyDetector)
          29 0).2) hid.KEY_H 1).1 = false :=
  ⟨by decide, by decide,
    exit_hotkey_modifier_release_no_trigger ⟨true, true, true⟩ 29
      (by decide) (by decide)⟩

/-- Counterexample to C3 as stated: complete the chord from a fresh
detector (the same press of KEY_H indeed triggers), then release KEY_H —
one of the three chord keys — and press it again: `process_key_event`
returns true again, so "releasing any one of the three chord keys followed
by a press of the letter never triggers" is false for the letter key. -/
theorem exit_hotkey_release_letter_retriggers :
    (process_key_event (run_key_events ExitHotkeyDetector.init
        [(hid.KEY_LEFTCTRL, 1), (hid.KEY_LEFTALT, 1)]) hid.KEY_H 1).1 = true
    ∧ (process_key_event
        ((process_key_event (run_key_events ExitHotkeyDetector.init
          [(hid.KEY_LEFTCTRL, 1), (hid.KEY_LEFTALT, 1), (hid.KEY_H, 1)])
          hid.KEY_H 0).2) hid.KEY_H 1).1 = true := by
  constructor <;> decide

/-- C8 (amended): whenever the monitor is valid, `get_poll_fds()` is the
list of the valid devices' fds in collection order followed by the
monitor's own fd, so the monitor fd is the last element for any device
collection size including zero. (With an invalid monitor no monitor fd is
appended — see the counterexample.) -/
theorem get_poll_fds_monitor_last (m : device.KeyboardManager)
    (hmon : m.monitor_valid = true) :
    device.get_poll_fds m
      = (m.keyboards.filter (fun kbd => kbd.valid)).map (fun kbd => kbd.fd)
        ++ [m.monitor_fd]
    ∧ (device.get_poll_fds m).getLast? = some m.monitor_fd := by
  constructor
  · simp [device.get_poll_fds, hmon]
  · simp [device.get_poll_fds, hmon, List.getLast?_concat]

/-- Witness for C8 with a mixed collection (one valid device, one invalid
device that is skipped) and with the empty collection. -/
theorem get_poll_fds_monitor_last_witness :
    (⟨[⟨"/dev/input/event0", 3, true⟩, ⟨"/dev/input/event1", 4, false⟩],
        true, 7⟩ : device.KeyboardManager).monitor_valid = true
    ∧ (device.get_poll_fds
        ⟨[⟨"/dev/input/event0", 3, true⟩, ⟨"/dev/input/event1", 4, false⟩],
          true, 7⟩
        = ((⟨[⟨"/dev/input/event0", 3, true⟩,
              ⟨"/dev/input/event1", 4, false⟩], true, 7⟩
            : device.KeyboardManager).keyboards.filter
              (fun kbd => kbd.valid)).map (fun kbd => kbd.fd) ++ [7]
      ∧ (device.get_poll_fds
          ⟨[⟨"/dev/input/event0", 3, true⟩, ⟨"/dev/input/event1", 4, false⟩],
            true, 7⟩).getLast? = some 7) :=
  ⟨rfl, get_poll_fds_monitor_last _ rfl⟩

/-- Counterexample to C8 as universally stated: a `KeyboardManager` whose
monitor failed to initialize (a real start-up outcome the code guards with
`monitor_.is_valid()`) returns a poll list without any monitor fd — here
the empty list, whose last element is not the stored monitor fd. -/
theorem get_poll_fds_invalid_monitor_counterexample :
    device.get_poll_fds ⟨[], false, -1⟩ = []
    ∧ (device.get_poll_fds ⟨[], false, -1⟩).getLast?
        ≠ some (⟨[], false, -1⟩ : device.KeyboardManager).monitor_fd := by
  constructor
  · rfl
  · decide
